import Mathlib

/-!
Shallow embedding of `hip_flask/extension.py` (the `HipExtension` class with
its nested `Meta`, `Script` and `Link` tag classes and the per-application
registry methods), together with theorems settling the specification claims.

Python values that flow through the dynamically typed constructor parameters
are modelled by the small variant type `PyVal`; Python exceptions raised
during construction are modelled by `Except PyError`.  The memoization
fields (`_cache_meta`, `_cache_script`, `_cache_link`) are pure caches of the
serialization and are not modelled; `as_tag` is modelled directly by the
underlying `_as_tag` string builders.
-/

/-- Model of the Python values that reach the tag constructors in this code
base: `None`, booleans, strings, and lists of strings.  Truthiness and
f-string formatting follow Python semantics for these four shapes. -/
inductive PyVal where
  | none
  | bool (b : Bool)
  | str (s : String)
  | strList (l : List String)
  deriving DecidableEq, Repr

/-- Python truthiness for the shapes in `PyVal`: `None` and empty
strings/lists are falsy; a boolean is itself. -/
def PyVal.truthy : PyVal → Bool
  | .none => false
  | .bool b => b
  | .str s => !s.isEmpty
  | .strList l => !l.isEmpty

/-- Python f-string interpolation (`str()`) of a `PyVal`: `None` prints as
`None`, `True`/`False` for booleans, a string prints verbatim, and a list
prints in Python list-repr form with quoted elements. -/
def PyVal.fmt : PyVal → String
  | .none => "None"
  | .bool b => if b then "True" else "False"
  | .str s => s
  | .strList l =>
      "[" ++ String.intercalate ", " (l.map fun s => "\x27" ++ s ++ "\x27") ++ "]"

/-- Model of a Python exception escaping a tag constructor: the explicit
`ValueError`s raised by the validation code, and the `AttributeError` raised
by an access to a nonexistent attribute. -/
inductive PyError where
  | valueError (msg : String)
  | attributeError (msg : String)
  deriving DecidableEq, Repr

/-- `", ".join(content)` style normalization: a list argument is joined with
the separator into a single string, any other value is stored unchanged
(source: the `isinstance(content, list)` branches in `Meta.__init__` and
`Link.__init__`). -/
def joinList (sep : String) : PyVal → PyVal
  | .strList l => .str (String.intercalate sep l)
  | v => v

/-- Model of the external static-asset resolver `url_for("static",
filename=...)` of the host framework (out of scope for the repository); the
default resolution prefixes the static route. -/
def url_for_static (filename : String) : String :=
  "/static/" ++ filename

/-- `HipExtension.Meta`: stored attributes of a meta tag
(source lines 68-88; the `_cache_meta` memoization field is omitted). -/
structure Meta where
  name : PyVal
  content : PyVal
  charset : PyVal
  http_equiv : Bool
  deriving DecidableEq, Repr

/-- `Meta.__init__` (source lines 68-88): raises `ValueError` when neither
`name` nor `charset` is truthy, and joins a list `content` with `", "`. -/
def Meta.mk? (name content charset : PyVal) (http_equiv : Bool) :
    Except PyError Meta :=
  if !name.truthy && !charset.truthy then
    .error (.valueError "Meta tag must have name or charset")
  else
    .ok { name := name, content := joinList ", " content,
          charset := charset, http_equiv := http_equiv }

/-- `Meta._as_tag` (source lines 103-122): the parts list is joined with the
empty separator, so no space separates the `name`/`http-equiv` attribute
from the `content` attribute. -/
def Meta.asTag (m : Meta) : String :=
  "<meta " ++
  (if m.charset.truthy then
    "charset=\"" ++ m.charset.fmt ++ "\""
  else
    (if m.http_equiv then
      "http-equiv=\"" ++ m.name.fmt ++ "\""
    else
      "name=\"" ++ m.name.fmt ++ "\"") ++
    "content=\"" ++ m.content.fmt ++ "\"") ++
  ">"

/-- `HipExtension.Script`: stored attributes of a script tag
(source lines 163-185; `_cache_script` omitted).  `nomodule` is a `PyVal`
because the registry method `script` passes a string into this slot. -/
structure Script where
  src : String
  typ : PyVal
  static : Bool
  asyn : Bool
  defer : Bool
  nomodule : PyVal
  policy : PyVal
  priority : PyVal
  integrity : PyVal
  crossorigin : PyVal
  deriving DecidableEq, Repr

/-- `Script._as_tag` (source lines 208-245): src (statically resolved when
`static`), then the optional attributes in the fixed source order, then the
closing `></script>`. -/
def Script.asTag (s : Script) : String :=
  let script_src := if s.static then url_for_static s.src else s.src
  "<script src=\"" ++ script_src ++ "\"" ++
  (if s.typ.truthy then " type=\"" ++ s.typ.fmt ++ "\"" else "") ++
  (if s.asyn then " async" else "") ++
  (if s.defer then " defer" else "") ++
  (if s.nomodule.truthy then " nomodule" else "") ++
  (if s.policy.truthy then " referrerpolicy=\"" ++ s.policy.fmt ++ "\"" else "") ++
  (if s.priority.truthy then " fetchpriority=\"" ++ s.priority.fmt ++ "\"" else "") ++
  (if s.integrity.truthy then " integrity=\"" ++ s.integrity.fmt ++ "\"" else "") ++
  (if s.crossorigin.truthy then " crossorigin=\"" ++ s.crossorigin.fmt ++ "\"" else "") ++
  "></script>"

/-- `HipExtension.Link`: stored attributes of a link tag
(source lines 337-392; `_cache_link` omitted).  `rel` and `block` are stored
after list joining. -/
structure Link where
  href : String
  rel : PyVal
  static : Bool
  a : PyVal
  typ : PyVal
  policy : PyVal
  priority : PyVal
  integrity : PyVal
  crossorigin : PyVal
  sizes : PyVal
  media : PyVal
  lang : PyVal
  title : PyVal
  block : PyVal
  disabled : Bool
  deriving DecidableEq, Repr

/-- `Link.__init__` (source lines 337-392).  The preload check (line 385)
compares the RAW `rel` argument, before list joining, against `"preload"`.
The hreflang check (line 389) evaluates `self.lang and not self.ref`, and
`self.ref` is a nonexistent attribute, so whenever `lang` is truthy the
constructor raises `AttributeError`. -/
def Link.mk? (href : String) (rel : PyVal) (static : Bool)
    (a typ policy priority integrity crossorigin sizes media lang title block : PyVal)
    (disabled : Bool) : Except PyError Link :=
  if rel == PyVal.str "preload" && !a.truthy then
    .error (.valueError "Preload link must have as attribute")
  else if lang.truthy then
    .error (.attributeError "Link object has no attribute ref")
  else
    .ok { href := href, rel := joinList " " rel, static := static, a := a,
          typ := typ, policy := policy, priority := priority,
          integrity := integrity, crossorigin := crossorigin, sizes := sizes,
          media := media, lang := lang, title := title,
          block := joinList " " block, disabled := disabled }

/-- `Link._as_tag` (source lines 413-465): href and rel, then the optional
attributes in the fixed source order, then ` />`.  The `as` attribute is
emitted only when the STORED `rel` equals `preload` or `modulepreload`. -/
def Link.asTag (l : Link) : String :=
  let tag_href := if l.static then url_for_static l.href else l.href
  "<link href=\"" ++ tag_href ++ "\" rel=\"" ++ l.rel.fmt ++ "\"" ++
  (if l.a.truthy && l.rel == PyVal.str "preload" then
    " as=\"" ++ l.a.fmt ++ "\""
  else if l.a.truthy && l.rel == PyVal.str "modulepreload" then
    " as=\"" ++ l.a.fmt ++ "\""
  else "") ++
  (if l.typ.truthy then " type=\"" ++ l.typ.fmt ++ "\"" else "") ++
  (if l.crossorigin.truthy then " crossorigin=\"" ++ l.crossorigin.fmt ++ "\"" else "") ++
  (if l.integrity.truthy then " integrity=\"" ++ l.integrity.fmt ++ "\"" else "") ++
  (if l.policy.truthy then " referrerpolicy=\"" ++ l.policy.fmt ++ "\"" else "") ++
  (if l.priority.truthy then " fetchpriority=\"" ++ l.priority.fmt ++ "\"" else "") ++
  (if l.sizes.truthy then " sizes=\"" ++ l.sizes.fmt ++ "\"" else "") ++
  (if l.media.truthy then " media=\"" ++ l.media.fmt ++ "\"" else "") ++
  (if l.lang.truthy then " hreflang=\"" ++ l.lang.fmt ++ "\"" else "") ++
  (if l.title.truthy then " title=\"" ++ l.title.fmt ++ "\"" else "") ++
  (if l.block.truthy then " block=\"" ++ l.block.fmt ++ "\"" else "") ++
  (if l.disabled then " disabled" else "") ++
  " />"

/-- `HipExtension.__init__` registry state (source lines 467-477): the three
ordered tag sequences.  The host-application binding is out of scope. -/
structure HipExtension where
  links : List Link
  scripts : List Script
  metas : List Meta
  deriving DecidableEq, Repr

/-- Fresh registry: all three sequences empty. -/
def HipExtension.init : HipExtension :=
  { links := [], scripts := [], metas := [] }

/-- `HipExtension.meta` (source lines 499-511): construct a `Meta` and append
it to `metas`; a constructor error propagates and leaves the registry
untouched. -/
def HipExtension.meta (h : HipExtension) (name content charset : PyVal)
    (http_equiv : Bool) : Except PyError HipExtension :=
  (Meta.mk? name content charset http_equiv).map fun new_meta =>
    { h with metas := h.metas ++ [new_meta] }

/-- `HipExtension.http_equiv` (source lines 513-521): calls
`self.meta(name, content, True)` with THREE positional arguments, so `True`
lands in the `charset` parameter and `http_equiv` keeps its default
`False`. -/
def HipExtension.http_equiv (h : HipExtension) (name content : PyVal) :
    Except PyError HipExtension :=
  h.meta name content (PyVal.bool true) false

/-- `HipExtension.noscript` (source lines 523-526): pure formatter, nothing
is stored. -/
def HipExtension.noscript (msg : String) : String :=
  "<noscript>" ++ msg ++ "</noscript>"

/-- The `Script` built by `HipExtension.script` (source lines 541-549): the
NINE positional arguments `(src, typ, static, asyn, defer, policy, priority,
integrity, crossorigin)` fill the first nine of the TEN constructor
parameters `(src, typ, static, asyn, defer, nomodule, policy, priority,
integrity, crossorigin)`, so `policy` lands in `nomodule`, `priority` in
`policy`, `integrity` in `priority`, `crossorigin` in `integrity`, and the
stored `crossorigin` keeps its default `None`. -/
def HipExtension.scriptTagOf (src : String) (typ : PyVal)
    (static asyn defer : Bool)
    (policy priority integrity crossorigin : PyVal) : Script :=
  { src := src, typ := typ, static := static, asyn := asyn, defer := defer,
    nomodule := policy, policy := priority, priority := integrity,
    integrity := crossorigin, crossorigin := PyVal.none }

/-- `HipExtension.script` (source lines 528-551): construct a `Script` (this
never raises) and append it to `scripts`. -/
def HipExtension.script (h : HipExtension) (src : String) (typ : PyVal)
    (static asyn defer : Bool)
    (policy priority integrity crossorigin : PyVal) : HipExtension :=
  { h with scripts := h.scripts ++
      [HipExtension.scriptTagOf src typ static asyn defer
        policy priority integrity crossorigin] }

/-- `HipExtension.static_script` (source lines 553-573): `script` with
`static=True`. -/
def HipExtension.static_script (h : HipExtension) (src : String) (typ : PyVal)
    (asyn defer : Bool)
    (policy priority integrity crossorigin : PyVal) : HipExtension :=
  h.script src typ true asyn defer policy priority integrity crossorigin

/-- `HipExtension.link` (source lines 575-610): construct a `Link` (passing
all arguments through in order) and append it to `links`; a constructor
error propagates and leaves the registry untouched.  The Python default for
`rel` is `"stylesheet"`. -/
def HipExtension.link (h : HipExtension) (href : String) (rel : PyVal)
    (static : Bool)
    (a typ policy priority integrity crossorigin sizes media lang title block : PyVal)
    (disabled : Bool) : Except PyError HipExtension :=
  (Link.mk? href rel static a typ policy priority integrity crossorigin
      sizes media lang title block disabled).map fun new_link =>
    { h with links := h.links ++ [new_link] }

/-- `HipExtension._get_scripts` (source lines 647-648). -/
def HipExtension.get_scripts (h : HipExtension) : List Script :=
  h.scripts

/-- `HipExtension._get_links` (source lines 650-651). -/
def HipExtension.get_links (h : HipExtension) : List Link :=
  h.links

/-- `HipExtension._get_metas` (source lines 653-654). -/
def HipExtension.get_metas (h : HipExtension) : List Meta :=
  h.metas

/-- One registration call against the registry: the arguments of one
`meta`, `script` or `link` invocation. -/
inductive Op where
  | addMeta (name content charset : PyVal) (http_equiv : Bool)
  | addScript (src : String) (typ : PyVal) (static asyn defer : Bool)
      (policy priority integrity crossorigin : PyVal)
  | addLink (href : String) (rel : PyVal) (static : Bool)
      (a typ policy priority integrity crossorigin sizes media lang title block : PyVal)
      (disabled : Bool)
  deriving DecidableEq, Repr

/-- Apply one registration call to the registry state. -/
def applyOp (h : HipExtension) : Op → Except PyError HipExtension
  | .addMeta name content charset http_equiv =>
      h.meta name content charset http_equiv
  | .addScript src typ static asyn defer policy priority integrity crossorigin =>
      .ok (h.script src typ static asyn defer policy priority integrity crossorigin)
  | .addLink href rel static a typ policy priority integrity crossorigin
      sizes media lang title block disabled =>
      h.link href rel static a typ policy priority integrity crossorigin
        sizes media lang title block disabled

/-- Apply a sequence of registration calls left to right; the first
constructor error aborts the run, as a raised Python exception would. -/
def runOps (h : HipExtension) : List Op → Except PyError HipExtension
  | [] => .ok h
  | op :: ops =>
      match applyOp h op with
      | .error e => .error e
      | .ok h2 => runOps h2 ops

/-- The meta tag a successful `addMeta` call appends (`none` for the other
operations). -/
def opNewMeta : Op → Option Meta
  | .addMeta name content charset http_equiv =>
      (Meta.mk? name content charset http_equiv).toOption
  | _ => none

/-- The script tag an `addScript` call appends (`none` for the other
operations). -/
def opNewScript : Op → Option Script
  | .addScript src typ static asyn defer policy priority integrity crossorigin =>
      some (HipExtension.scriptTagOf src typ static asyn defer
        policy priority integrity crossorigin)
  | _ => none

/-- The link tag a successful `addLink` call appends (`none` for the other
operations). -/
def opNewLink : Op → Option Link
  | .addLink href rel static a typ policy priority integrity crossorigin
      sizes media lang title block disabled =>
      (Link.mk? href rel static a typ policy priority integrity crossorigin
        sizes media lang title block disabled).toOption
  | _ => none

/-- Concatenation of the strings whose guard is true, in order. -/
def optParts : List (Bool × String) → String
  | [] => ""
  | p :: rest => (if p.1 then p.2 else "") ++ optParts rest

/-- Spec-side rendering of a script tag, following the words of spec §4.2:
`<script src="resolved-src"` followed by each present attribute in the fixed
order type, async, defer, nomodule, referrerpolicy, fetchpriority,
integrity, crossorigin (booleans as bare tokens, strings as
`name="value"`), closed by `></script>`. -/
def scriptRenderSpec (s : Script) : String :=
  "<script src=\"" ++ (if s.static then url_for_static s.src else s.src) ++ "\"" ++
  optParts
    [ (s.typ.truthy, " type=\"" ++ s.typ.fmt ++ "\""),
      (s.asyn, " async"),
      (s.defer, " defer"),
      (s.nomodule.truthy, " nomodule"),
      (s.policy.truthy, " referrerpolicy=\"" ++ s.policy.fmt ++ "\""),
      (s.priority.truthy, " fetchpriority=\"" ++ s.priority.fmt ++ "\""),
      (s.integrity.truthy, " integrity=\"" ++ s.integrity.fmt ++ "\""),
      (s.crossorigin.truthy, " crossorigin=\"" ++ s.crossorigin.fmt ++ "\"") ] ++
  "></script>"

/-- Registration calls used to exercise the order-preservation theorem on a
concrete run: two identical scripts, one charset meta, one stylesheet
link. -/
def c8ops : List Op :=
  [ Op.addScript "a.js" PyVal.none false false false
      PyVal.none PyVal.none PyVal.none PyVal.none,
    Op.addScript "a.js" PyVal.none false false false
      PyVal.none PyVal.none PyVal.none PyVal.none,
    Op.addMeta PyVal.none PyVal.none (PyVal.str "utf-8") false,
    Op.addLink "main.css" (PyVal.str "stylesheet") false
      PyVal.none PyVal.none PyVal.none PyVal.none PyVal.none PyVal.none
      PyVal.none PyVal.none PyVal.none PyVal.none PyVal.none false ]

/-- The script tag each of the two identical `addScript` calls in `c8ops`
appends. -/
def c8script : Script :=
  HipExtension.scriptTagOf "a.js" PyVal.none false false false
    PyVal.none PyVal.none PyVal.none PyVal.none

/-- The registry state after running `c8ops` from the empty registry: the
duplicate scripts are both kept, in insertion order. -/
def c8final : HipExtension :=
  { links := [{ href := "main.css", rel := PyVal.str "stylesheet",
                static := false, a := PyVal.none, typ := PyVal.none,
                policy := PyVal.none, priority := PyVal.none,
                integrity := PyVal.none, crossorigin := PyVal.none,
                sizes := PyVal.none, media := PyVal.none, lang := PyVal.none,
                title := PyVal.none, block := PyVal.none, disabled := false }],
    scripts := [c8script, c8script],
    metas := [{ name := PyVal.none, content := PyVal.none,
                charset := PyVal.str "utf-8", http_equiv := false }] }

/-- The meta tag the registry actually appends on
`http_equiv("refresh", "30")`: `True` lands in `charset` and `http_equiv`
stays `False`. -/
def c1meta : Meta :=
  { name := PyVal.str "refresh", content := PyVal.str "30",
    charset := PyVal.bool true, http_equiv := false }

/-- The script tag the registry actually appends on a `script` call with
`policy="origin"` and every later optional absent: `"origin"` lands in
`nomodule` and the stored `policy` is `None`. -/
def c2script : Script :=
  { src := "app.js", typ := PyVal.none, static := false, asyn := false,
    defer := false, nomodule := PyVal.str "origin", policy := PyVal.none,
    priority := PyVal.none, integrity := PyVal.none,
    crossorigin := PyVal.none }

/-- `List.filterMap` over a cons, phrased through `Option.toList` so the
per-operation step of the order-preservation proof composes with list
append. -/
theorem filterMap_cons_toList {α β : Type} (f : α → Option β) (a : α)
    (l : List α) :
    List.filterMap f (a :: l) = (f a).toList ++ List.filterMap f l := by
  cases h : f a <;> simp [List.filterMap_cons, h]

/-- C1: behavior of the registry at the http-equiv convenience call.  The
source passes `(name, content, True)` positionally into
`meta(name, content, charset, http_equiv)`, so `http_equiv("refresh", "30")`
appends a meta whose `charset` is the boolean `True` and whose `http_equiv`
flag is `False`; it renders as `<meta charset="True">`, not as an http-equiv
meta. -/
theorem c1_http_equiv_passes_true_as_charset :
    HipExtension.init.http_equiv (PyVal.str "refresh") (PyVal.str "30") =
      .ok { links := [], scripts := [], metas := [c1meta] } ∧
    c1meta.charset = PyVal.bool true ∧
    c1meta.http_equiv = false ∧
    Meta.asTag c1meta = "<meta charset=\"True\">" :=
  ⟨rfl, rfl, rfl, rfl⟩

/-- C2: behavior of the registry `script` method.  The source passes nine
positional arguments into the ten-parameter `Script` constructor, so a call
with `policy="origin"` and every later optional absent stores `"origin"` in
the `nomodule` attribute and `None` in `policy`; the appended tag renders
with a bare `nomodule` token and no `referrerpolicy` attribute. -/
theorem c2_script_positional_misalignment :
    (HipExtension.init.script "app.js" PyVal.none false false false
        (PyVal.str "origin") PyVal.none PyVal.none PyVal.none).scripts =
      [c2script] ∧
    c2script.nomodule = PyVal.str "origin" ∧
    c2script.policy = PyVal.none ∧
    Script.asTag c2script = "<script src=\"app.js\" nomodule></script>" :=
  ⟨rfl, rfl, rfl, rfl⟩

/-- C3: behavior of `Link` construction with `lang` set and `rel` not
preload.  The hreflang check evaluates `self.lang and not self.ref`, and
`self.ref` is a nonexistent attribute, so the construction raises
`AttributeError` instead of succeeding. -/
theorem c3_lang_raises_attribute_error :
    Link.mk? "a.css" (PyVal.str "alternate") false PyVal.none PyVal.none
        PyVal.none PyVal.none PyVal.none PyVal.none PyVal.none PyVal.none
        (PyVal.str "en") PyVal.none PyVal.none false =
      .error (.attributeError "Link object has no attribute ref") :=
  rfl

/-- C4: behavior of `Meta` rendering in the name branch.  The parts list is
joined with the empty separator, so the rendering of a valid name meta is
`<meta name="description"content="w">`, with NO space between the name
attribute and the content attribute. -/
theorem c4_meta_render_has_no_space :
    (Meta.mk? (PyVal.str "description") (PyVal.str "w") PyVal.none
        false).map Meta.asTag =
      .ok "<meta name=\"description\"content=\"w\">" :=
  rfl

/-- C5 counterexample: constructing a meta with BOTH `name` and `charset`
set succeeds, contradicting the claim that exactly one of the two must
hold. -/
theorem c5_both_name_and_charset_succeeds :
    Meta.mk? (PyVal.str "author") PyVal.none (PyVal.str "utf-8") false =
      .ok { name := PyVal.str "author", content := PyVal.none,
            charset := PyVal.str "utf-8", http_equiv := false } :=
  rfl

/-- C5 (amended): `Meta` construction succeeds iff AT LEAST one of `name`
or `charset` is truthy; with neither it fails, and with both it
succeeds. -/
theorem c5_meta_succeeds_iff_name_or_charset
    (name content charset : PyVal) (http_equiv : Bool) :
    (∃ m, Meta.mk? name content charset http_equiv = Except.ok m) ↔
      (name.truthy = true ∨ charset.truthy = true) := by
  by_cases hn : name.truthy <;> by_cases hc : charset.truthy <;>
    simp [Meta.mk?, hn, hc]

/-- C6: for every href, constructing a link with `rel="preload"` and no
`as` fails with the validation error, while the same construction with
`as="style"` succeeds and its rendering contains `as="style"`. -/
theorem c6_preload_requires_as (href : String) :
    Link.mk? href (PyVal.str "preload") false PyVal.none PyVal.none
        PyVal.none PyVal.none PyVal.none PyVal.none PyVal.none PyVal.none
        PyVal.none PyVal.none PyVal.none false =
      .error (.valueError "Preload link must have as attribute") ∧
    ∃ l, Link.mk? href (PyVal.str "preload") false (PyVal.str "style")
        PyVal.none PyVal.none PyVal.none PyVal.none PyVal.none PyVal.none
        PyVal.none PyVal.none PyVal.none PyVal.none false = .ok l ∧
      ∃ p q, l.asTag = p ++ "as=\"style\"" ++ q := by
  refine ⟨rfl, ⟨_, rfl, ?_⟩⟩
  refine ⟨"<link href=\"" ++ href ++ "\" rel=\"preload\" ", " />", ?_⟩
  show ("<link href=\"" ++ href ++ "\" rel=\"" ++ "preload" ++ "\"" ++
      (" as=\"" ++ "style" ++ "\"") ++ "" ++ "" ++ "" ++ "" ++ "" ++ "" ++
      "" ++ "" ++ "" ++ "" ++ "" ++ " />") = _
  simp [String.append_assoc]

/-- C7: for every script tag, the rendering equals the spec-side rendering:
`<script src="resolved-src"` followed by each present attribute in the
fixed order type, async, defer, nomodule, referrerpolicy, fetchpriority,
integrity, crossorigin (booleans as bare tokens, strings as
`name="value"`), closed by `></script>`. -/
theorem c7_script_render_fixed_order (s : Script) :
    Script.asTag s = scriptRenderSpec s := by
  simp [Script.asTag, scriptRenderSpec, optParts, String.append_assoc,
    String.append_empty, String.empty_append]

/-- C8: a successful run of registration calls appends exactly the
constructed tags, in insertion order, with no reordering and no
deduplication: each accessor returns the starting sequence followed by the
tags of the corresponding successful calls, in order. -/
theorem c8_registration_preserves_order (h : HipExtension) (ops : List Op)
    (hfin : HipExtension) (hrun : runOps h ops = .ok hfin) :
    hfin.get_metas = h.get_metas ++ ops.filterMap opNewMeta ∧
    hfin.get_scripts = h.get_scripts ++ ops.filterMap opNewScript ∧
    hfin.get_links = h.get_links ++ ops.filterMap opNewLink := by
  induction ops generalizing h with
  | nil =>
      cases hrun
      simp [HipExtension.get_metas, HipExtension.get_scripts,
        HipExtension.get_links]
  | cons op ops ih =>
      simp only [runOps] at hrun
      cases happ : applyOp h op with
      | error e => rw [happ] at hrun; cases hrun
      | ok h1 =>
          rw [happ] at hrun
          obtain ⟨hm, hs, hl⟩ := ih h1 hrun
          have hstep : h1.metas = h.metas ++ (opNewMeta op).toList ∧
              h1.scripts = h.scripts ++ (opNewScript op).toList ∧
              h1.links = h.links ++ (opNewLink op).toList := by
            cases op with
            | addMeta n c ch he =>
                cases hmk : Meta.mk? n c ch he with
                | error e =>
                    rw [applyOp, HipExtension.meta, hmk] at happ
                    cases happ
                | ok m =>
                    rw [applyOp, HipExtension.meta, hmk] at happ
                    cases happ
                    simp [opNewMeta, opNewScript, opNewLink, hmk,
                      Except.toOption, Option.toList]
            | addScript src typ st as df pol pr ig co =>
                rw [applyOp] at happ
                cases happ
                simp [opNewMeta, opNewScript, opNewLink,
                  HipExtension.script]
            | addLink href rel st a typ pol pr ig co sz md lg tl bl dis =>
                cases hmk : Link.mk? href rel st a typ pol pr ig co
                    sz md lg tl bl dis with
                | error e =>
                    rw [applyOp, HipExtension.link, hmk] at happ
                    cases happ
                | ok lnk =>
                    rw [applyOp, HipExtension.link, hmk] at happ
                    cases happ
                    simp [opNewMeta, opNewScript, opNewLink, hmk,
                      Except.toOption, Option.toList]
          obtain ⟨hm1, hs1, hl1⟩ := hstep
          simp only [HipExtension.get_metas, HipExtension.get_scripts,
            HipExtension.get_links] at hm hs hl ⊢
          refine ⟨?_, ?_, ?_⟩
          · rw [hm, hm1, filterMap_cons_toList, List.append_assoc]
          · rw [hs, hs1, filterMap_cons_toList, List.append_assoc]
          · rw [hl, hl1, filterMap_cons_toList, List.append_assoc]

/-- C8 witness: a concrete successful run (two identical scripts, a meta,
a link) from the empty registry reaches exactly the state `c8final`, and
the theorem applied to it yields the three accessor equalities. -/
theorem c8_registration_preserves_order_witness :
    runOps HipExtension.init c8ops = .ok c8final ∧
    c8final.get_metas =
      HipExtension.init.get_metas ++ c8ops.filterMap opNewMeta ∧
    c8final.get_scripts =
      HipExtension.init.get_scripts ++ c8ops.filterMap opNewScript ∧
    c8final.get_links =
      HipExtension.init.get_links ++ c8ops.filterMap opNewLink :=
  ⟨rfl, c8_registration_preserves_order HipExtension.init c8ops c8final rfl⟩

/-- C9: the preload validation inspects the raw `rel` argument before list
joining, so a link whose `rel` is the single-element list `["preload"]`
succeeds with no `as`, even though the stored `rel` is then the string
`"preload"`. -/
theorem c9_preload_list_bypasses_check (href : String) :
    Link.mk? href (PyVal.strList ["preload"]) false PyVal.none PyVal.none
        PyVal.none PyVal.none PyVal.none PyVal.none PyVal.none PyVal.none
        PyVal.none PyVal.none PyVal.none false =
      .ok { href := href, rel := PyVal.str "preload", static := false,
            a := PyVal.none, typ := PyVal.none, policy := PyVal.none,
            priority := PyVal.none, integrity := PyVal.none,
            crossorigin := PyVal.none, sizes := PyVal.none,
            media := PyVal.none, lang := PyVal.none, title := PyVal.none,
            block := PyVal.none, disabled := false } :=
  rfl

/-- C10: `Meta` construction treats the empty string as absent: with
`name=""` and charset absent, or with both the empty string, it fails with
exactly the same validation error as giving neither. -/
theorem c10_empty_name_treated_absent (content : PyVal) (http_equiv : Bool) :
    Meta.mk? (PyVal.str "") content PyVal.none http_equiv =
      .error (.valueError "Meta tag must have name or charset") ∧
    Meta.mk? (PyVal.str "") content (PyVal.str "") http_equiv =
      .error (.valueError "Meta tag must have name or charset") ∧
    Meta.mk? PyVal.none content PyVal.none http_equiv =
      .error (.valueError "Meta tag must have name or charset") :=
  ⟨rfl, rfl, rfl⟩
